import Mathlib

/-!
Verification development for the patent-status tracker.

The definitions below are a shallow embedding of the Python sources
(`src/uspto_api.py`, `src/database.py`, `src/polling.py`,
`src/components/column_config.py`).  JSON-decoded Python values are
modelled by the inductive type `J`; the SQLite store is modelled by the
`Db` structure; remote endpoint outcomes are supplied by an `Env` record
(one `Except` value per endpoint, standing for the result of the
corresponding `fetch_*` call: a decoded payload, or a raised
`USPTOApiError`).  Machine-level details that the Python runtime
guarantees (dict insertion order, exception propagation order) are made
explicit in the state-passing style used here.
-/

/-- JSON-like Python value (result of decoding a USPTO response, or a
value stored in a SQLite column). -/
inductive J where
  | null
  | bool (b : Bool)
  | num (n : Int)
  | str (s : String)
  | arr (xs : List J)
  | obj (kvs : List (String × J))

mutual

/-- Structural (Python `==` style) equality test on `J`. -/
def J.beq : J → J → Bool
  | .null, .null => true
  | .bool a, .bool b => a == b
  | .num a, .num b => a == b
  | .str a, .str b => a == b
  | .arr xs, .arr ys => J.beqL xs ys
  | .obj xs, .obj ys => J.beqO xs ys
  | _, _ => false

/-- Pointwise equality test on lists of `J`. -/
def J.beqL : List J → List J → Bool
  | [], [] => true
  | x :: xs, y :: ys => J.beq x y && J.beqL xs ys
  | _, _ => false

/-- Pointwise equality test on key/value lists. -/
def J.beqO : List (String × J) → List (String × J) → Bool
  | [], [] => true
  | (k1, v1) :: xs, (k2, v2) :: ys => k1 == k2 && J.beq v1 v2 && J.beqO xs ys
  | _, _ => false

end

/-- Python truthiness (`if x:`) of a JSON-decoded value. -/
def J.toBool : J → Bool
  | .null => false
  | .bool b => b
  | .num n => n != 0
  | .str s => !(s = "")
  | .arr xs => !xs.isEmpty
  | .obj kvs => !kvs.isEmpty

/-- Python dict lookup `d[k]` / `d.get(k)`: first binding of the key. -/
def dictGet (kvs : List (String × J)) (k : String) : Option J :=
  match kvs with
  | [] => none
  | (k1, v) :: rest => if k1 = k then some v else dictGet rest k

/-- Python `d.get(k, default)`. -/
def dictGetD (kvs : List (String × J)) (k : String) (dflt : J) : J :=
  (dictGet kvs k).getD dflt

/-- Python `d[k] = v`: replace the existing binding in place, else append
(insertion-ordered dict semantics). -/
def dictSet (kvs : List (String × J)) (k : String) (v : J) : List (String × J) :=
  match kvs with
  | [] => [(k, v)]
  | (k1, v1) :: rest =>
      if k1 = k then (k1, v) :: rest else (k1, v1) :: dictSet rest k v

/-- Python `d.update(other)`: set every binding of `other` in order. -/
def dictUpdate (kvs other : List (String × J)) : List (String × J) :=
  other.foldl (fun acc kv => dictSet acc kv.1 kv.2) kvs

/-- Python `d.pop(k, None)`: remove every binding of the key.  (A Python
dict holds each key once; on such dicts this removes the one binding.) -/
def dictPop (kvs : List (String × J)) (k : String) : List (String × J) :=
  kvs.filter (fun kv => !(kv.1 = k))

/-- Python `for x in v` over a decoded JSON value, as used by the parse
functions on `*Bag` fields: list payloads iterate their elements and any
other shape contributes no iterations. -/
def J.asArr : J → List J
  | .arr xs => xs
  | _ => []

/-- Object payload of a decoded JSON value (`.get` is only used on
objects; any other shape yields no bindings). -/
def J.asObj : J → List (String × J)
  | .obj kvs => kvs
  | _ => []

/-- Member lookup `v.get(k, dflt)` on a decoded JSON value. -/
def J.getD (v : J) (k : String) (dflt : J) : J :=
  dictGetD v.asObj k dflt

/-- Member lookup `v.get(k)` on a decoded JSON value (`None` if absent). -/
def J.get1 (v : J) (k : String) : J :=
  dictGetD v.asObj k J.null

/-- Escape of a string body for `json.dumps`. -/
def jsonEscape (s : String) : String :=
  ⟨s.data.foldr (fun c acc =>
      if c = '"' then '\\' :: '"' :: acc
      else if c = '\\' then '\\' :: '\\' :: acc
      else c :: acc) []⟩

mutual

/-- Python `json.dumps` on a decoded value (default separators). -/
def J.dumps : J → String
  | .null => "null"
  | .bool b => if b then "true" else "false"
  | .num n => toString n
  | .str s => "\"" ++ jsonEscape s ++ "\""
  | .arr xs => "[" ++ J.dumpsL xs ++ "]"
  | .obj kvs => "\x7b" ++ J.dumpsO kvs ++ "\x7d"

/-- Comma-joined serialization of array elements. -/
def J.dumpsL : List J → String
  | [] => ""
  | [x] => J.dumps x
  | x :: xs => J.dumps x ++ ", " ++ J.dumpsL xs

/-- Comma-joined serialization of object members. -/
def J.dumpsO : List (String × J) → String
  | [] => ""
  | [(k, v)] => "\"" ++ jsonEscape k ++ "\": " ++ J.dumps v
  | (k, v) :: kvs => "\"" ++ jsonEscape k ++ "\": " ++ J.dumps v ++ ", " ++ J.dumpsO kvs

end

/-- Python `str(x)` on a decoded JSON value (scalars; containers are
rendered with their JSON shape, a harmless stand-in for `repr`). -/
def J.pyStr : J → String
  | .null => "None"
  | .bool b => if b then "True" else "False"
  | .num n => toString n
  | .str s => s
  | v => J.dumps v

/-- String content of a value that the Python code passes to a `str`-typed
parameter (event fields, filing dates): strings pass through unchanged. -/
def J.asStr : J → String
  | .str s => s
  | v => J.pyStr v

/-! ## Calendar arithmetic

Model of the `datetime.date` values and the `timedelta` addition used by
`calculate_expiration_date` in `src/uspto_api.py`.  Dates are triples
`(year, month, day)`; day arithmetic goes through a day count from the
epoch 0000-03-01 (the standard civil-calendar conversion), which is the
shallow counterpart of `datetime + timedelta(days=n)`. -/

/-- Gregorian leap-year test (as `calendar.isleap` / `datetime`). -/
def isLeapYear (y : Nat) : Bool :=
  y % 4 == 0 && (y % 100 != 0 || y % 400 == 0)

/-- Number of days in a month. -/
def daysInMonth (y m : Nat) : Nat :=
  if m = 2 then (if isLeapYear y then 29 else 28)
  else if m = 4 ∨ m = 6 ∨ m = 9 ∨ m = 11 then 30
  else 31

/-- Validity of a `datetime.date(y, m, d)` construction: `datetime`
accepts years 1..9999 and checks the day against the month length. -/
def validDate (y m d : Nat) : Bool :=
  1 ≤ y && y ≤ 9999 && 1 ≤ m && m ≤ 12 && 1 ≤ d && d ≤ daysInMonth y m

/-- Day count of a date from the epoch 0000-03-01 (civil-from-days
conversion; `0001-01-01` maps to 306). -/
def ratadieOfDate (y m d : Nat) : Nat :=
  let yy := if m ≤ 2 then y - 1 else y
  let era := yy / 400
  let yoe := yy % 400
  let mp := if 2 < m then m - 3 else m + 9
  let doy := (153 * mp + 2) / 5 + (d - 1)
  let doe := yoe * 365 + yoe / 4 - yoe / 100 + doy
  era * 146097 + doe

/-- Date with the given day count from the epoch 0000-03-01. -/
def dateOfRatadie (n : Nat) : Nat × Nat × Nat :=
  let era := n / 146097
  let doe := n % 146097
  let yoe := (doe - doe / 1460 + doe / 36524 - doe / 146096) / 365
  let y0 := yoe + era * 400
  let doy := doe - (365 * yoe + yoe / 4 - yoe / 100)
  let mp := (5 * doy + 2) / 153
  let d := doy - (153 * mp + 2) / 5 + 1
  let m := if mp < 10 then mp + 3 else mp - 9
  (if m ≤ 2 then y0 + 1 else y0, m, d)

/-- Day count of `0001-01-01`, the smallest `datetime` value. -/
def ratadieMin : Nat := 306

/-- Day count of `9999-12-31`, the largest `datetime` value. -/
def ratadieMax : Nat := ratadieOfDate 9999 12 31

/-- Digit character for a value below ten. -/
def digitChar (n : Nat) : Char := Char.ofNat (48 + n)

/-- Model of `strftime('%Y-%m-%d')`: zero-padded 4-2-2 rendering. -/
def renderDate (y m d : Nat) : String :=
  ⟨[digitChar (y / 1000 % 10), digitChar (y / 100 % 10),
    digitChar (y / 10 % 10), digitChar (y % 10), '-',
    digitChar (m / 10 % 10), digitChar (m % 10), '-',
    digitChar (d / 10 % 10), digitChar (d % 10)]⟩

/-- Numeric value of a digit character, `none` on any other character. -/
def digitVal (c : Char) : Option Nat :=
  if '0' ≤ c ∧ c ≤ '9' then some (c.toNat - 48) else none

/-- Four-digit year matcher of `strptime`'s `%Y` directive (the CPython
pattern is exactly four digits). -/
def matchYear : List Char → Option (Nat × List Char)
  | c1 :: c2 :: c3 :: c4 :: rest =>
    match digitVal c1, digitVal c2, digitVal c3, digitVal c4 with
    | some a, some b, some c, some d => some (((a * 10 + b) * 10 + c) * 10 + d, rest)
    | _, _, _, _ => none
  | _ => none

/-- Month matcher of `strptime`'s `%m` directive: the alternatives of the
CPython pattern (two-digit forms before the one-digit form), in order. -/
def matchMonth (cs : List Char) : List (Nat × List Char) :=
  let two :=
    match cs with
    | c1 :: c2 :: rest =>
      (match digitVal c2 with
       | some v =>
         if c1 = '1' then (if v ≤ 2 then [(10 + v, rest)] else [])
         else if c1 = '0' then (if 1 ≤ v then [(v, rest)] else [])
         else []
       | none => [])
    | _ => []
  let one :=
    match cs with
    | c1 :: rest =>
      (match digitVal c1 with
       | some v => if 1 ≤ v then [(v, rest)] else []
       | none => [])
    | _ => []
  two ++ one

/-- Day matcher of `strptime`'s `%d` directive: the alternatives of the
CPython pattern (two-digit forms before the one-digit form), in order. -/
def matchDay (cs : List Char) : List (Nat × List Char) :=
  let two :=
    match cs with
    | c1 :: c2 :: rest =>
      (match digitVal c2 with
       | some v =>
         if c1 = '3' then (if v ≤ 1 then [(30 + v, rest)] else [])
         else if c1 = '1' then [(10 + v, rest)]
         else if c1 = '2' then [(20 + v, rest)]
         else if c1 = '0' then (if 1 ≤ v then [(v, rest)] else [])
         else []
       | none => [])
    | _ => []
  let one :=
    match cs with
    | c1 :: rest =>
      (match digitVal c1 with
       | some v => if 1 ≤ v then [(v, rest)] else []
       | none => [])
    | _ => []
  two ++ one

/-- Model of `datetime.strptime(s, '%Y-%m-%d')` up to the field split:
the whole input must be consumed, and regex backtracking tries the
alternatives of each directive in order.  (Range validation of the
resulting triple is done separately, as by the `datetime` constructor.) -/
def parseYMD (s : String) : Option (Nat × Nat × Nat) :=
  match matchYear s.data with
  | none => none
  | some (y, r1) =>
    match r1 with
    | '-' :: r2 =>
      (matchMonth r2).findSome? fun mr =>
        match mr.2 with
        | '-' :: r4 =>
          (matchDay r4).findSome? fun dr =>
            if dr.2 = [] then some (y, mr.1, dr.1) else none
        | _ => none
    | _ => none

/-- Errors of Python `int(x)`: `ValueError` (bad string) or `TypeError`
(non-numeric, non-string operand). -/
inductive PyIntErr where
  | valueErr
  | typeErr

/-- Python `int(s)` on a string: optional surrounding blanks, optional
sign, then a nonempty digit run. -/
def parseIntStr (s : String) : Option Int :=
  let cs := (s.data.dropWhile (· = ' ')).reverse.dropWhile (· = ' ') |>.reverse
  let (neg, ds) :=
    match cs with
    | '-' :: rest => (true, rest)
    | '+' :: rest => (false, rest)
    | rest => (false, rest)
  if ds = [] ∨ ¬ (ds.all Char.isDigit) then none
  else
    let n : Nat := ds.foldl (fun acc c => acc * 10 + (c.toNat - 48)) 0
    some (if neg then -(n : Int) else (n : Int))

/-- Python `int(x)` on a decoded JSON value. -/
def pyInt : J → Except PyIntErr Int
  | .num n => .ok n
  | .bool b => .ok (if b then 1 else 0)
  | .str s =>
    match parseIntStr s with
    | some n => .ok n
    | none => .error .valueErr
  | .null => .error .typeErr
  | .arr _ => .error .typeErr
  | .obj _ => .error .typeErr

/-- Python `x or 0`. -/
def jOrZero (v : J) : J :=
  if v.toBool then v else J.num 0

/-- Embedding of `calculate_expiration_date` (src/uspto_api.py).  The
`pta_days` argument is kept as the decoded value the caller passes
(`pta.get('pta_total_days', 0)`).  `.ok s` is the returned string;
`.error ()` is an exception the function lets escape (a `TypeError` from
`int`, or the `OverflowError` of a `timedelta` result outside the
supported `datetime` range). -/
def calculate_expiration_date (filing_date : String) (pta_days : J) : Except Unit String :=
  if filing_date = "" then .ok ""
  else
    match parseYMD filing_date with
    | none => .ok ""
    | some (y, m, d) =>
      if ¬ (validDate y m d) then .ok ""
      else
        let step2 : Option (Nat × Nat × Nat) :=
          if validDate (y + 20) m d then some (y + 20, m, d)
          else if m = 2 ∧ d = 29 then
            (if validDate (y + 20) 2 28 then some (y + 20, 2, 28) else none)
          else none
        match step2 with
        | none => .ok ""
        | some (y2, m2, d2) =>
          match pyInt (jOrZero pta_days) with
          | .error .valueErr => .ok ""
          | .error .typeErr => .error ()
          | .ok n =>
            let rd : Int := (ratadieOfDate y2 m2 d2 : Int) + n
            if rd < (ratadieMin : Int) ∨ (ratadieMax : Int) < rd then .error ()
            else
              let t := dateOfRatadie rd.toNat
              .ok (renderDate t.1 t.2.1 t.2.2)

/-- Spec reading of the 20-year anniversary: the filing date with the
year advanced by 20, clamped to February 28 when the filing date is
February 29 and the target year is not a leap year. -/
def twentyYearAnniv (y m d : Nat) : Nat × Nat × Nat :=
  if m = 2 ∧ d = 29 ∧ ¬ (isLeapYear (y + 20) = true) then (y + 20, 2, 28)
  else (y + 20, m, d)

/-- Spec reading of the expiration algorithm, as a date triple: the
clamped 20-year anniversary plus the adjustment days. -/
def specExpirationTriple (y m d ptaDays : Nat) : Nat × Nat × Nat :=
  dateOfRatadie (ratadieOfDate (twentyYearAnniv y m d).1 (twentyYearAnniv y m d).2.1
    (twentyYearAnniv y m d).2.2 + ptaDays)

/-! ## Application-number normalization (src/uspto_api.py) -/

/-- Python `s.replace(old, '')` for a single-character pattern. -/
def removeChar (c : Char) (s : String) : String :=
  ⟨s.data.filter (fun x => !(x = c))⟩

/-- Embedding of `normalize_app_number`: strip slashes, spaces, commas. -/
def normalize_app_number (s : String) : String :=
  removeChar ',' (removeChar ' ' (removeChar '/' s))

/-- Embedding of `format_app_number`: display form `xx/xxx,xxx` for
normalized numbers of length at least 8. -/
def format_app_number (s : String) : String :=
  let n := normalize_app_number s
  if 8 ≤ n.data.length then
    ⟨n.data.take 2 ++ '/' :: (n.data.drop 2).take 3 ++ ',' :: n.data.drop 5⟩
  else n

/-! ## Local store (src/database.py)

The SQLite store is modelled as lists of rows.  A patents row keeps its
two schema-relevant columns (`id`, `application_number`) explicit and
the remaining columns as a column-name/value map; dependent-table rows
keep their owning `patent_id` explicit and the remaining columns as a
map.  `database.py` normalizes application numbers inline with the same
three `replace` calls as `normalize_app_number`. -/

/-- Row of the `patents` table. -/
structure PatentRow where
  id : Int
  application_number : String
  fields : List (String × J)

/-- Row of the `events` table (`is_new` defaults to true on insert). -/
structure EventRow where
  patent_id : Int
  event_code : String
  event_description : String
  event_date : String
  is_new : Bool

/-- Row of a dependent table (`continuity`, `documents`, `assignments`). -/
structure DepRow where
  patent_id : Int
  payload : List (String × J)

/-- The persistent store. -/
structure Db where
  patents : List PatentRow
  events : List EventRow
  continuity : List DepRow
  documents : List DepRow
  assignments : List DepRow

/-- Ordered insertion of a patents row by application number. -/
def insertRowSorted (p : PatentRow) : List PatentRow → List PatentRow
  | [] => [p]
  | q :: qs =>
    if p.application_number ≤ q.application_number then p :: q :: qs
    else q :: insertRowSorted p qs

/-- Sort of the patents rows by application number (insertion sort). -/
def sortByAppNumber : List PatentRow → List PatentRow
  | [] => []
  | p :: ps => insertRowSorted p (sortByAppNumber ps)

/-- Embedding of `get_all_patents`: all rows, ordered by application
number (SQLite text ordering modelled by the string order). -/
def get_all_patents (db : Db) : List PatentRow :=
  sortByAppNumber db.patents

/-- Embedding of `remove_patent`: look the row up by normalized number;
if present, delete the dependents of its id and then the row, returning
true; otherwise return false. -/
def remove_patent (db : Db) (application_number : String) : Db × Bool :=
  let app_num := normalize_app_number application_number
  match db.patents.find? (fun p => p.application_number == app_num) with
  | some p =>
    ({ patents := db.patents.filter (fun q => !(q.id == p.id)),
       events := db.events.filter (fun e => !(e.patent_id == p.id)),
       continuity := db.continuity.filter (fun r => !(r.patent_id == p.id)),
       documents := db.documents.filter (fun r => !(r.patent_id == p.id)),
       assignments := db.assignments.filter (fun r => !(r.patent_id == p.id)) }, true)
  | none => (db, false)

/-- The allow-list of updatable `patents` columns in `update_patent`. -/
def allowed_fields : List String :=
  ["title", "applicant", "inventor", "filing_date", "examiner",
   "current_status", "status_date", "art_unit", "customer_number", "last_checked",
   "patent_number", "grant_date", "publication_number", "publication_date",
   "publication_date_bag", "publication_sequence_number_bag", "publication_category_bag",
   "pct_publication_number", "pct_publication_date", "international_registration_number",
   "international_registration_publication_date", "national_stage_indicator",
   "application_type_code", "application_type_label", "application_type_category",
   "uspc_class", "uspc_subclass", "uspc_symbol", "cpc_classification_bag",
   "docket_number", "confirmation_number", "effective_filing_date", "first_inventor_to_file",
   "entity_status", "small_entity_indicator",
   "status_code",
   "pta_total_days", "pta_a_delay", "pta_b_delay", "pta_c_delay", "pta_applicant_delay",
   "pta_overlap_delay", "pta_non_overlap_delay", "expiration_date", "pta_history_bag",
   "applicant_bag", "inventor_bag", "foreign_priority_bag", "attorney_bag", "assignment_bag"]

/-- The defensive `re.fullmatch(r"[a-z_]+", key)` check of `update_patent`. -/
def matchesFieldPattern (s : String) : Bool :=
  !(s.data.isEmpty) && s.data.all (fun c => ('a' ≤ c && c ≤ 'z') || c = '_')

/-- Embedding of `update_patent`: apply the allow-listed, pattern-checked
subset of the keyword map to every row with the normalized number (a
no-op when nothing survives the filter). -/
def update_patent (db : Db) (application_number : String) (kwargs : List (String × J)) : Db :=
  let app_num := normalize_app_number application_number
  let fields := kwargs.filter (fun kv => allowed_fields.contains kv.1 && matchesFieldPattern kv.1)
  if fields.isEmpty then db
  else
    { db with patents := db.patents.map (fun p =>
        if p.application_number == app_num then
          { p with fields := dictUpdate p.fields fields }
        else p) }

/-- Embedding of `add_event`: the insert succeeds only when the foreign
key resolves (the connection runs with `PRAGMA foreign_keys = ON`) and
the `(patent_id, event_code, event_date)` uniqueness constraint holds;
each `sqlite3.IntegrityError` is caught and reported as `false`. -/
def add_event (db : Db) (patent_id : Int) (event_code event_description event_date : String) :
    Db × Bool :=
  let fkOk := db.patents.any (fun p => p.id == patent_id)
  let dup := db.events.any (fun e =>
    e.patent_id == patent_id && e.event_code == event_code && e.event_date == event_date)
  if fkOk && !dup then
    ({ db with events := db.events ++
        [{ patent_id := patent_id, event_code := event_code,
           event_description := event_description, event_date := event_date, is_new := true }] },
     true)
  else (db, false)

/-- Column values a `continuity` row is inserted with by `save_continuity`. -/
def continuityPayload (rel : String) (r : J) (now : String) : List (String × J) :=
  [("relationship_type", J.str rel),
   ("related_app_number", r.get1 "app_number"),
   ("related_patent_number", r.get1 "patent_number"),
   ("filing_date", r.get1 "filing_date"),
   ("status_description", r.get1 "status"),
   ("status_code", r.get1 "status_code"),
   ("continuity_type_code", r.get1 "continuity_type"),
   ("continuity_type_description", r.get1 "continuity_description"),
   ("first_inventor_to_file", r.get1 "first_inventor_to_file"),
   ("last_updated", J.str now)]

/-- Embedding of `save_continuity`: delete the patent's prior snapshot,
then insert the parent rows and the child rows. -/
def save_continuity (db : Db) (patent_id : Int) (parents children : List J) (now : String) : Db :=
  { db with continuity :=
      db.continuity.filter (fun r => !(r.patent_id == patent_id))
      ++ parents.map (fun p => ⟨patent_id, continuityPayload "parent" p now⟩)
      ++ children.map (fun c => ⟨patent_id, continuityPayload "child" c now⟩) }

/-- Column values a `documents` row is inserted with by `save_documents`. -/
def documentPayload (doc : J) (now : String) : List (String × J) :=
  [("document_identifier", doc.get1 "document_id"),
   ("document_code", doc.get1 "document_code"),
   ("document_description", doc.get1 "description"),
   ("official_date", doc.get1 "date"),
   ("direction_category", doc.get1 "direction"),
   ("download_options", doc.get1 "download_options"),
   ("page_count", doc.get1 "page_count"),
   ("last_updated", J.str now)]

/-- One `INSERT OR REPLACE` into `documents`: the conflicting row under
the `(patent_id, document_identifier)` uniqueness is replaced. -/
def upsertDocument (rows : List DepRow) (patent_id : Int) (doc : J) (now : String) : List DepRow :=
  rows.filter (fun r =>
      !(r.patent_id == patent_id &&
        J.beq (dictGetD r.payload "document_identifier" J.null) (doc.get1 "document_id")))
    ++ [⟨patent_id, documentPayload doc now⟩]

/-- Embedding of `save_documents`: upsert each document in order. -/
def save_documents (db : Db) (patent_id : Int) (docs : List J) (now : String) : Db :=
  { db with documents := docs.foldl (fun rows doc => upsertDocument rows patent_id doc now) db.documents }

/-- Column values an `assignments` row is inserted with by `save_assignments`. -/
def assignmentPayload (a : J) (now : String) : List (String × J) :=
  [("reel_number", a.get1 "reel_number"),
   ("frame_number", a.get1 "frame_number"),
   ("reel_frame", a.get1 "reel_frame"),
   ("page_count", a.get1 "page_count"),
   ("received_date", a.get1 "received_date"),
   ("recorded_date", a.get1 "recorded_date"),
   ("mailed_date", a.get1 "mailed_date"),
   ("conveyance_text", a.get1 "conveyance_text"),
   ("assignor_bag", a.get1 "assignor_bag"),
   ("assignee_bag", a.get1 "assignee_bag"),
   ("document_url", a.get1 "document_url"),
   ("last_updated", J.str now)]

/-- Embedding of `save_assignments`: delete the patent's prior snapshot,
then insert the new rows. -/
def save_assignments (db : Db) (patent_id : Int) (assignments : List J) (now : String) : Db :=
  { db with assignments :=
      db.assignments.filter (fun r => !(r.patent_id == patent_id))
      ++ assignments.map (fun a => ⟨patent_id, assignmentPayload a now⟩) }

/-! ## Table preferences (src/database.py, src/components/column_config.py) -/

/-- The sanitized preference record returned by `validate_table_preferences`. -/
structure TablePrefs where
  visible_columns : List String
  column_widths : List (String × Int)
  sort_column : Option String
  sort_ascending : Bool

/-- The `valid_keys` list: string `key` entries of the column schema. -/
def columnValidKeys (columns : List J) : List String :=
  columns.filterMap (fun c =>
    match c.get1 "key" with
    | J.str s => some s
    | _ => none)

/-- The `default_visible` list: keys of schema columns whose
`default_visible` entry is truthy (and whose key is a known string). -/
def columnDefaultVisible (columns : List J) : List String :=
  let valid := columnValidKeys columns
  columns.filterMap (fun c =>
    match c.get1 "key" with
    | J.str s =>
      if (c.get1 "default_visible").toBool && valid.contains s then some s else none
    | _ => none)

/-- Embedding of `validate_table_preferences`: drop unknown visible
columns, reset to the defaults when nothing remains, append new
default-visible columns, filter widths and the sort column. -/
def validate_table_preferences (prefs : List (String × J)) (columns : List J) : TablePrefs :=
  let valid_keys := columnValidKeys columns
  let default_visible := columnDefaultVisible columns
  let visible_raw :=
    match dictGetD prefs "visible_columns" (J.arr []) with
    | J.arr xs => xs
    | _ => []
  let visible0 := visible_raw.filterMap (fun k =>
    match k with
    | J.str s => if valid_keys.contains s then some s else none
    | _ => none)
  let visible1 := if visible0.isEmpty then default_visible else visible0
  let visible2 := default_visible.foldl
    (fun acc k => if acc.contains k then acc else acc ++ [k]) visible1
  let widths :=
    match dictGetD prefs "column_widths" (J.obj []) with
    | J.obj kvs => kvs.foldl (fun acc kv =>
        match kv.2 with
        | J.num v => if valid_keys.contains kv.1 && 0 < v then acc ++ [(kv.1, v)] else acc
        | J.bool b => if valid_keys.contains kv.1 && b then acc ++ [(kv.1, 1)] else acc
        | _ => acc) []
    | _ => []
  let sort_column :=
    match dictGetD prefs "sort_column" J.null with
    | J.str s => if valid_keys.contains s then some s else none
    | _ => none
  let sort_ascending := (dictGetD prefs "sort_ascending" (J.bool true)).toBool
  { visible_columns := visible2, column_widths := widths,
    sort_column := sort_column, sort_ascending := sort_ascending }

/-- Spec reading of the visible-columns rule, first half: the entries of
the stored list that name a current schema column, in their stored
order. -/
def specKeptVisible (prefs : List (String × J)) (columns : List J) : List String :=
  let schemaKeys := columnValidKeys columns
  (match dictGetD prefs "visible_columns" (J.arr []) with
   | J.arr xs => xs
   | _ => []).filterMap (fun k =>
      match k with
      | J.str s => if schemaKeys.contains s then some s else none
      | _ => none)

/-- Spec reading of the visible-columns rule, second half: the schema's
default-visible columns that are still missing from the base list, in
schema order, each appended once. -/
def specMissingDefaults (defaults base : List String) : List String :=
  match defaults with
  | [] => []
  | k :: ks =>
    if base.contains k then specMissingDefaults ks base
    else k :: specMissingDefaults ks (base ++ [k])

/-! ## Response parsing (src/uspto_api.py) -/

/-- One event fact extracted from the required response. -/
structure EventFact where
  event_code : J
  event_description : J
  event_date : J

/-- Result of `parse_application_data` on a parsable response. -/
structure ParsedApp where
  metadata : List (String × J)
  events : List EventFact

/-- Is the value a JSON object (a Python `dict`)? -/
def J.isObj : J → Bool
  | .obj _ => true
  | _ => false

/-- Is the value a string? -/
def J.isStr : J → Bool
  | .str _ => true
  | _ => false

/-- Python `value or []`: a falsy value is replaced by the empty list. -/
def jOrEmptyArr (v : J) : J :=
  if v.toBool then v else J.arr []

/-- Python `for member in value` where the loop body calls
`member.get(...)` on every visited member, as the parse loops of
`src/uspto_api.py` do (none of those loops breaks early).  A list whose
members are all objects iterates them; an empty string or empty object
iterates nothing; any other value raises — `TypeError` for a
non-iterable (`None`, a number, a boolean), `AttributeError` at the
first member's `.get` for a nonempty string (its members are
one-character strings) or a nonempty object (its members are its
keys).  The partially built Python list is local and discarded with the
exception, so a raising loop is collapsed to `.error`. -/
def pyIterMembers : J → Except Unit (List J)
  | .arr xs => if xs.all J.isObj then .ok xs else .error ()
  | .str s => if s = "" then .ok [] else .error ()
  | .obj kvs => if kvs.isEmpty then .ok [] else .error ()
  | _ => .error ()

/-- Python `', '.join(names)` over the collected name values. -/
def joinCommaSpace (names : List J) : String :=
  String.intercalate ", " (names.map J.asStr)

/-- Name values collected from a `*Bag` member list: the truthy entries
of the given text field of each member. -/
def collectNames (items : List J) (field : String) : List J :=
  items.filterMap (fun item =>
    let name := item.getD field (J.str "")
    if name.toBool then some name else none)

/-- The flattened metadata literal of `parse_application_data`, given
the first wrapper `w`, its metadata object `md`, its entity-status
object `entity`, and the collected inventor and applicant names. -/
def appMetadataFields (w md entity : J) (inventors applicants : List J) :
    List (String × J) :=
  [("application_number", w.getD "applicationNumberText" (J.str "")),
           ("title", md.getD "inventionTitle" (J.str "")),
           ("applicant", match applicants with | a :: _ => a | [] => J.str ""),
           ("inventor", J.str (joinCommaSpace inventors)),
           ("filing_date", md.getD "filingDate" (J.str "")),
           ("current_status", md.getD "applicationStatusDescriptionText" (J.str "")),
           ("status_date", md.getD "applicationStatusDate" (J.str "")),
           ("examiner", md.getD "examinerNameText" (J.str "")),
           ("art_unit", md.getD "groupArtUnitNumber" (J.str "")),
           ("customer_number", J.str (md.getD "customerNumber" (J.str "")).pyStr),
           ("patent_number", md.getD "patentNumber" (J.str "")),
           ("grant_date", md.getD "grantDate" (J.str "")),
           ("publication_number", md.getD "earliestPublicationNumber" (J.str "")),
           ("publication_date", md.getD "earliestPublicationDate" (J.str "")),
           ("publication_date_bag", J.str (J.dumps (md.getD "publicationDateBag" (J.arr [])))),
           ("publication_sequence_number_bag",
            J.str (J.dumps (md.getD "publicationSequenceNumberBag" (J.arr [])))),
           ("publication_category_bag",
            J.str (J.dumps (md.getD "publicationCategoryBag" (J.arr [])))),
           ("pct_publication_number", md.getD "pctPublicationNumber" (J.str "")),
           ("pct_publication_date", md.getD "pctPublicationDate" (J.str "")),
           ("international_registration_number",
            md.getD "internationalRegistrationNumber" (J.str "")),
           ("international_registration_publication_date",
            md.getD "internationalRegistrationPublicationDate" (J.str "")),
           ("national_stage_indicator",
            J.num (if (md.get1 "nationalStageIndicator").toBool then 1 else 0)),
           ("application_type_code", md.getD "applicationTypeCode" (J.str "")),
           ("application_type_label", md.getD "applicationTypeLabelName" (J.str "")),
           ("application_type_category", md.getD "applicationTypeCategory" (J.str "")),
           ("uspc_class", md.getD "class" (J.str "")),
           ("uspc_subclass", md.getD "subclass" (J.str "")),
           ("uspc_symbol", md.getD "uspcSymbolText" (J.str "")),
           ("cpc_classification_bag",
            J.str (J.dumps (md.getD "cpcClassificationBag" (J.arr [])))),
           ("docket_number", md.getD "docketNumber" (J.str "")),
           ("confirmation_number",
            J.str (md.getD "applicationConfirmationNumber" (J.str "")).pyStr),
           ("effective_filing_date", md.getD "effectiveFilingDate" (J.str "")),
           ("first_inventor_to_file", md.getD "firstInventorToFileIndicator" (J.str "")),
           ("entity_status", entity.getD "businessEntityStatusCategory" (J.str "")),
           ("small_entity_indicator",
            J.num (if (entity.get1 "smallEntityStatusIndicator").toBool then 1 else 0)),
           ("status_code", md.get1 "applicationStatusCode"),
   ("applicant_bag", J.str (J.dumps (md.getD "applicantBag" (J.arr [])))),
   ("inventor_bag", J.str (J.dumps (md.getD "inventorBag" (J.arr []))))]

/-- Embedding of `parse_application_data`.  The function returns `.ok
none` exactly where the source returns `None`: the
`patentFileWrapperDataBag` entry (after `or []`) is not a list or is
empty.  It raises (`.error`) exactly where the source raises before
returning: a non-object payload (`raw_data.get` on a non-dict), a
non-object first wrapper or metadata or entity-status value (`.get` on
a non-dict), a malformed inventor, applicant, or event bag (see
`pyIterMembers`), or a collected inventor name that is not a string
(`', '.join` raises `TypeError`).  All raising conditions collapse to
the same `.error ()`, so their evaluation order is immaterial.
Otherwise the flattened metadata map and the event list of the first
wrapper are returned. -/
def parse_application_data (raw : J) : Except Unit (Option ParsedApp) :=
  match raw with
  | .obj _ =>
    match jOrEmptyArr (raw.get1 "patentFileWrapperDataBag") with
    | J.arr (w :: _) =>
      match w with
      | .obj _ =>
        match w.getD "applicationMetaData" (J.obj []) with
        | .obj mdkvs =>
          match pyIterMembers ((J.obj mdkvs).getD "inventorBag" (J.arr [])) with
          | .error _ => .error ()
          | .ok invItems =>
            match pyIterMembers ((J.obj mdkvs).getD "applicantBag" (J.arr [])) with
            | .error _ => .error ()
            | .ok appItems =>
              match (J.obj mdkvs).getD "entityStatusData" (J.obj []) with
              | .obj entkvs =>
                match pyIterMembers (w.getD "eventDataBag" (J.arr [])) with
                | .error _ => .error ()
                | .ok evItems =>
                  if ¬ (collectNames invItems "inventorNameText").all J.isStr then
                    .error ()
                  else
                    .ok (some
                      { metadata := appMetadataFields w (J.obj mdkvs) (J.obj entkvs)
                          (collectNames invItems "inventorNameText")
                          (collectNames appItems "applicantNameText"),
                        events := evItems.map (fun e =>
                          { event_code := e.getD "eventCode" (J.str ""),
                            event_description := e.getD "eventDescriptionText" (J.str ""),
                            event_date := e.getD "eventDate" (J.str "") }) })
              | _ => .error ()
        | _ => .error ()
      | _ => .error ()
    | _ => .ok none
  | _ => .error ()

/-- Embedding of `parse_adjustment_data`: the empty map on a falsy
payload (the source returns the empty dict before touching the
payload); the PTA fields on a truthy object; on a truthy non-object the
first `raw_data.get` raises `AttributeError`. -/
def parse_adjustment_data (raw : J) : Except Unit (List (String × J)) :=
  if ¬ raw.toBool then .ok []
  else
    match raw with
    | .obj _ => .ok
      [("pta_total_days", raw.getD "adjustmentTotalQuantity" (J.num 0)),
     ("pta_a_delay", raw.getD "aDelayQuantity" (J.num 0)),
     ("pta_b_delay", raw.getD "bDelayQuantity" (J.num 0)),
     ("pta_c_delay", raw.getD "cDelayQuantity" (J.num 0)),
     ("pta_applicant_delay", raw.getD "applicantDayDelayQuantity" (J.num 0)),
     ("pta_overlap_delay", raw.getD "overlappingDayQuantity" (J.num 0)),
     ("pta_non_overlap_delay", raw.getD "nonOverlappingDayQuantity" (J.num 0)),
     ("pta_history_bag",
      J.str (J.dumps (raw.getD "patentTermAdjustmentHistoryDataBag" (J.arr []))))]
    | _ => .error ()

/-- One relationship record of `parse_continuity_data`, built from the
keys with the given prefix (`parent` or `child`). -/
def continuityRecord (pre : String) (item : J) : J :=
  J.obj
    [("app_number", item.getD (pre ++ "ApplicationNumberText") (J.str "")),
     ("patent_number", item.getD (pre ++ "PatentNumber") (J.str "")),
     ("filing_date", item.getD (pre ++ "ApplicationFilingDate") (J.str "")),
     ("status", item.getD (pre ++ "ApplicationStatusDescriptionText") (J.str "")),
     ("status_code", item.getD (pre ++ "ApplicationStatusCode") (J.num 0)),
     ("continuity_type", item.getD "claimParentageTypeCode" (J.str "")),
     ("continuity_description", item.getD "claimParentageTypeCodeDescriptionText" (J.str "")),
     ("first_inventor_to_file",
      J.num (if (item.get1 "firstInventorToFileIndicator").toBool then 1 else 0))]

/-- Embedding of `parse_continuity_data`: the parent and child record
lists on an object payload with well-formed bags.  A non-object payload
raises `AttributeError` at the first `raw_data.get`; a malformed bag
raises inside a loop (see `pyIterMembers`).  Either way the exception
escapes the function. -/
def parse_continuity_data (raw : J) : Except Unit (List J × List J) :=
  match raw with
  | .obj _ =>
    match pyIterMembers (raw.getD "parentContinuityBag" (J.arr [])) with
    | .error _ => .error ()
    | .ok ps =>
      match pyIterMembers (raw.getD "childContinuityBag" (J.arr [])) with
      | .error _ => .error ()
      | .ok cs =>
        .ok (ps.map (continuityRecord "parent"), cs.map (continuityRecord "child"))
  | _ => .error ()

/-- Page-count loop of `parse_documents_data` over the download-option
members: the source breaks at the first option with a truthy
`pageTotalQuantity`, so members after it are never touched; a non-object
member reached before that point raises `AttributeError` at
`option.get`. -/
def firstPageCount : List J → Except Unit J
  | [] => .ok (J.num 0)
  | x :: xs =>
    match x with
    | J.obj _ =>
      if (x.get1 "pageTotalQuantity").toBool then .ok (x.get1 "pageTotalQuantity")
      else firstPageCount xs
    | _ => .error ()

/-- The page-count loop applied to the raw `downloadOptionBag` value: a
list runs the member loop; an empty string or empty object iterates
nothing (count 0); any other value raises — `TypeError` for a
non-iterable, `AttributeError` at the first member otherwise. -/
def pageCountOfOptions : J → Except Unit J
  | .arr xs => firstPageCount xs
  | .str s => if s = "" then .ok (J.num 0) else .error ()
  | .obj kvs => if kvs.isEmpty then .ok (J.num 0) else .error ()
  | _ => .error ()

/-- Date cleanup of `parse_documents_data`: `if official_date and 'T'
in official_date`, then split on `T` and keep the first part.  A falsy
value short-circuits and is kept as is; a truthy string is tested for
the substring `T` and split; a truthy list or object passes the
membership test and then raises `AttributeError` at `.split` when it
holds the string `T` as a member or key; a truthy number or boolean
raises `TypeError` at the membership test. -/
def stripTimePart (d : J) : Except Unit J :=
  if ¬ d.toBool then .ok d
  else
    match d with
    | J.str s =>
      if s.data.contains 'T' then .ok (J.str ⟨s.data.takeWhile (fun c => !(c = 'T'))⟩)
      else .ok (J.str s)
    | J.arr xs =>
      if xs.any (fun x => match x with | J.str t => t == "T" | _ => false) then .error ()
      else .ok d
    | J.obj kvs =>
      if kvs.any (fun kv => kv.1 == "T") then .error () else .ok d
    | _ => .error ()

/-- One record of `parse_documents_data`, built from an object member
of the `documentBag`; raises where the page-count loop or the date
cleanup raises. -/
def documentRecord (doc : J) : Except Unit J :=
  match pageCountOfOptions (doc.getD "downloadOptionBag" (J.arr [])) with
  | .error _ => .error ()
  | .ok pc =>
    match stripTimePart (doc.getD "officialDate" (J.str "")) with
    | .error _ => .error ()
    | .ok od =>
      .ok (J.obj
        [("document_id", doc.getD "documentIdentifier" (J.str "")),
         ("document_code", doc.getD "documentCode" (J.str "")),
         ("description", doc.getD "documentCodeDescriptionText" (J.str "")),
         ("date", od),
         ("direction", doc.getD "documentDirectionCategory" (J.str "")),
         ("download_options", J.str (J.dumps (doc.getD "downloadOptionBag" (J.arr [])))),
         ("page_count", pc)])

/-- Embedding of `parse_documents_data`: one record per `documentBag`
member.  A non-object payload raises at `raw_data.get`; a malformed bag
or a raising member record aborts the whole list (the partial Python
list is discarded with the exception). -/
def parse_documents_data (raw : J) : Except Unit (List J) :=
  match raw with
  | .obj _ =>
    match pyIterMembers (raw.getD "documentBag" (J.arr [])) with
    | .error _ => .error ()
    | .ok docs => docs.mapM documentRecord
  | _ => .error ()

/-- Embedding of `parse_assignment_data`: one record per
`patentAssignmentBag` member.  A non-object payload raises at
`raw_data.get`; a malformed bag raises inside the loop (see
`pyIterMembers`). -/
def parse_assignment_data (raw : J) : Except Unit (List J) :=
  match raw with
  | .obj _ =>
    match pyIterMembers (raw.getD "patentAssignmentBag" (J.arr [])) with
    | .error _ => .error ()
    | .ok items =>
      .ok (items.map (fun a =>
        J.obj
          [("reel_number", a.getD "reelNumber" (J.str "")),
           ("frame_number", a.getD "frameNumber" (J.str "")),
           ("reel_frame", a.getD "reelAndFrameNumber" (J.str "")),
           ("page_count", a.getD "pageTotalQuantity" (J.num 0)),
           ("received_date", a.getD "assignmentReceivedDate" (J.str "")),
           ("recorded_date", a.getD "assignmentRecordedDate" (J.str "")),
           ("mailed_date", a.getD "assignmentMailedDate" (J.str "")),
           ("conveyance_text", a.getD "conveyanceText" (J.str "")),
           ("assignor_bag", J.str (J.dumps (a.getD "assignorBag" (J.arr [])))),
           ("assignee_bag", J.str (J.dumps (a.getD "assigneeBag" (J.arr [])))),
           ("document_url", a.getD "assignmentDocumentLocationURI" (J.str ""))]))
  | _ => .error ()

/-- Embedding of `parse_attorney_data`: the serialized payload, or the
literal `[]` on a falsy one.  Total: the source only calls
`json.dumps`, which succeeds on every decoded value. -/
def parse_attorney_data (raw : J) : String :=
  if raw.toBool then J.dumps raw else "[]"

/-- Embedding of `parse_foreign_priority_data`: the serialized
`foreignPriorityBag` entry of an object payload; a non-object payload
raises `AttributeError` at `raw_data.get`. -/
def parse_foreign_priority_data (raw : J) : Except Unit String :=
  match raw with
  | .obj _ => .ok (J.dumps (raw.getD "foreignPriorityBag" (J.arr [])))
  | _ => .error ()

/-! ## Synchronization engine (src/polling.py)

Network effects are supplied by an `Env` record: one entry per USPTO
endpoint, holding the result of the corresponding `fetch_*` call —
either the decoded payload it returns, or the message of the
`USPTOApiError` it raises.  The engine threads the store through
explicitly; a raised error carries the store as written so far. -/

/-- Fetch results of the seven endpoints for one application number. -/
structure Env where
  application : Except String J
  adjustment : Except String J
  continuity : Except String J
  documents : Except String J
  assignment : Except String J
  attorney : Except String J
  foreign_priority : Except String J

/-- Error raised out of `_update_patent_from_api`: a `USPTOApiError`
from the required fetch, or any other exception — the `ValueError` of
the parse guard, or an `AttributeError`/`TypeError` escaping
`parse_application_data` (rendered with the fixed stand-in text
`uncaught exception`; the model does not track the Python exception
text, and no theorem depends on it). -/
inductive SyncErr where
  | api (msg : String)
  | unexpected (msg : String)

/-- Result dictionary of a successful `_update_patent_from_api` call. -/
structure SyncOutcome where
  metadata : List (String × J)
  new_events : List EventFact
  total_events : Nat

/-- Python `metadata.get("filing_date") or ""` coerced into the
`str`-typed `filing_date` parameter: a falsy value becomes the empty
string; a truthy non-string would raise a `TypeError` inside the
optional-PTA `try` block. -/
def filingOrEmpty (v : J) : Except Unit String :=
  if v.toBool then
    match v with
    | J.str s => .ok s
    | _ => .error ()
  else .ok ""

/-- The optional-PTA block of `_update_patent_from_api`: on success,
merge the PTA fields and the computed expiration date into the update
map; any failure (fetch error, a raising parse swallowed by the block's
generic handler, empty payload handled separately, or an exception
inside the block) leaves the map untouched. -/
def ptaStep (env : Env) (metadata uf : List (String × J)) : List (String × J) :=
  match env.adjustment with
  | .error _ => uf
  | .ok ptaRaw =>
    match parse_adjustment_data ptaRaw with
    | .error _ => uf
    | .ok pta =>
      if pta.isEmpty then uf
      else
        match filingOrEmpty (dictGetD metadata "filing_date" J.null) with
        | .error _ => uf
        | .ok filing =>
          match calculate_expiration_date filing (dictGetD pta "pta_total_days" (J.num 0)) with
          | .error _ => uf
          | .ok expiration => dictSet (dictUpdate uf pta) "expiration_date" (J.str expiration)

/-- The optional-continuity block: on a successful fetch and parse,
replace the stored snapshot; on a fetch error or a raising parse
(swallowed by the block's `except Exception`), leave the store
untouched. -/
def contStep (env : Env) (patent_id : Int) (now : String) (db : Db) : Db :=
  match env.continuity with
  | .error _ => db
  | .ok raw =>
    match parse_continuity_data raw with
    | .error _ => db
    | .ok c => save_continuity db patent_id c.1 c.2 now

/-- The optional-documents block: on a successful fetch and parse,
upsert the parsed documents; on a fetch error or a raising parse, leave
the store untouched. -/
def docsStep (env : Env) (patent_id : Int) (now : String) (db : Db) : Db :=
  match env.documents with
  | .error _ => db
  | .ok raw =>
    match parse_documents_data raw with
    | .error _ => db
    | .ok docs => save_documents db patent_id docs now

/-- The optional-assignments block: on a successful fetch and parse,
replace the stored snapshot and add the serialized bag to the update
map; on a fetch error or a raising parse, change neither. -/
def assignStep (env : Env) (patent_id : Int) (now : String) (db : Db)
    (uf : List (String × J)) : Db × List (String × J) :=
  match env.assignment with
  | .error _ => (db, uf)
  | .ok raw =>
    match parse_assignment_data raw with
    | .error _ => (db, uf)
    | .ok assignments =>
      (save_assignments db patent_id assignments now,
       dictSet uf "assignment_bag" (J.str (J.dumps (J.arr assignments))))

/-- The optional-attorney block: on success, add the serialized payload
to the update map (its parse is total). -/
def attorneyStep (env : Env) (uf : List (String × J)) : List (String × J) :=
  match env.attorney with
  | .error _ => uf
  | .ok raw => dictSet uf "attorney_bag" (J.str (parse_attorney_data raw))

/-- The optional-foreign-priority block: on a successful fetch and
parse, add the serialized payload to the update map; on a fetch error
or a raising parse, leave it untouched. -/
def foreignStep (env : Env) (uf : List (String × J)) : List (String × J) :=
  match env.foreign_priority with
  | .error _ => uf
  | .ok raw =>
    match parse_foreign_priority_data raw with
    | .error _ => uf
    | .ok s => dictSet uf "foreign_priority_bag" (J.str s)

/-- The event-ingestion loop at the end of `_update_patent_from_api`:
insert each parsed event through `add_event` and collect the new ones. -/
def addEventsLoop (db : Db) (patent_id : Int) : List EventFact → Db × List EventFact
  | [] => (db, [])
  | e :: rest =>
    let r := add_event db patent_id e.event_code.asStr e.event_description.asStr e.event_date.asStr
    let r2 := addEventsLoop r.1 patent_id rest
    (r2.1, if r.2 then e :: r2.2 else r2.2)

/-- Embedding of `_update_patent_from_api`: required fetch, then the
required parse — a parse that raises propagates out uncaught (before
any write), a `None` parse raises the guard's `ValueError` — then the
six optional endpoint blocks, one consolidated `update_patent` write,
and idempotent event ingestion. -/
def _update_patent_from_api (env : Env) (now : String) (patent_id : Int) (app_num : String)
    (db : Db) : Db × Except SyncErr SyncOutcome :=
  match env.application with
  | .error e => (db, .error (.api e))
  | .ok raw =>
    match parse_application_data raw with
    | .error _ => (db, .error (.unexpected "uncaught exception"))
    | .ok none => (db, .error (.unexpected "Could not parse USPTO response"))
    | .ok (some parsed) =>
      let metadata := parsed.metadata
      let uf0 := dictSet (dictPop metadata "application_number") "last_checked" (J.str now)
      let uf1 := ptaStep env metadata uf0
      let db1 := contStep env patent_id now db
      let db2 := docsStep env patent_id now db1
      let a := assignStep env patent_id now db2 uf1
      let uf2 := attorneyStep env a.2
      let uf3 := foreignStep env uf2
      let db3 := update_patent a.1 app_num uf3
      let r := addEventsLoop db3 patent_id parsed.events
      (r.1, .ok { metadata := metadata, new_events := r.2, total_events := parsed.events.length })

/-- Result dictionary of `poll_now`. -/
structure PollResult where
  success : Bool
  new_events : List (List (String × J))
  errors : List String
  updated_patents : Nat

/-- One iteration of the `poll_now` loop over a tracked patent: on
success, collect the decorated new events; on a `USPTOApiError`, append
the plain message; on any other exception, append the
`Unexpected error` form.  The inter-record sleep has no store effect. -/
def pollOne (envs : String → Env) (now : String) (acc : Db × PollResult) (p : PatentRow) :
    Db × PollResult :=
  let u := _update_patent_from_api (envs p.application_number) now p.id p.application_number acc.1
  match u.2 with
  | .ok outcome =>
    let newEv := outcome.new_events.map (fun e =>
      [("application_number", J.str p.application_number),
       ("title", dictGetD outcome.metadata "title" J.null),
       ("event_code", e.event_code),
       ("event_description", e.event_description),
       ("event_date", e.event_date)])
    (u.1, { acc.2 with
            new_events := acc.2.new_events ++ newEv,
            updated_patents :=
              acc.2.updated_patents + (if outcome.new_events.isEmpty then 0 else 1) })
  | .error (.api msg) =>
    (u.1, { acc.2 with errors := acc.2.errors ++ [p.application_number ++ ": " ++ msg] })
  | .error (.unexpected msg) =>
    (u.1, { acc.2 with errors :=
        acc.2.errors ++ [p.application_number ++ ": Unexpected error - " ++ msg] })

/-- Embedding of `PollingService.poll_now`: sync every tracked patent in
order, collecting new events and per-record errors; `success` starts
true and is recomputed as `errors < total` only when errors occurred. -/
def poll_now (envs : String → Env) (now : String) (db : Db) : Db × PollResult :=
  let patents := get_all_patents db
  let fin := patents.foldl (pollOne envs now)
    (db, { success := true, new_events := [], errors := [], updated_patents := 0 })
  if fin.2.errors.isEmpty then fin
  else (fin.1, { fin.2 with success := decide (fin.2.errors.length < patents.length) })

/-- Sleep counter of the inter-poll wait in `PollingService._poll_loop`:
the loop body runs at most `total` times (`interval_minutes * 60`),
checks the `_running` flag, and only then sleeps one second.  `running
done` is the flag value observed after `done` completed one-second
sleeps; the result is the number of one-second sleeps executed. -/
def pollWaitSleeps (running : Nat → Bool) : Nat → Nat → Nat
  | 0, _ => 0
  | t + 1, done => if running done then pollWaitSleeps running t (done + 1) + 1 else 0

/-! ## Sample data used by witness instantiations -/

/-- Sample tracked patent row. -/
def samplePatent : PatentRow :=
  { id := 1, application_number := "17940142", fields := [("title", J.str "Widget")] }

/-- Sample store with one tracked patent and one dependent row per table. -/
def sampleDb : Db :=
  { patents := [samplePatent],
    events := [],
    continuity := [⟨1, [("relationship_type", J.str "parent")]⟩],
    documents := [⟨1, [("document_identifier", J.str "D1")]⟩],
    assignments := [⟨1, [("reel_number", J.str "7")]⟩] }

/-- Sample empty store. -/
def emptyDb : Db := { patents := [], events := [], continuity := [], documents := [], assignments := [] }

/-- C4 witness environment: the required fetch raises. -/
def envDown : Env :=
  { application := .error "USPTO API request timed out. Please try again.",
    adjustment := .error "Adjustment API error: 500",
    continuity := .error "Continuity API error: 500",
    documents := .error "Documents API error: 500",
    assignment := .error "Assignment API error: 500",
    attorney := .error "Attorney API error: 500",
    foreign_priority := .error "Foreign priority API error: 500" }

/-- Sample column schema: three columns, two default-visible. -/
def sampleColumns : List J :=
  [J.obj [("key", J.str "app_number"), ("header", J.str "Application #"),
          ("width", J.num 110), ("default_visible", J.bool true)],
   J.obj [("key", J.str "title"), ("header", J.str "Title"),
          ("width", J.num 280), ("default_visible", J.bool true)],
   J.obj [("key", J.str "filing_date"), ("header", J.str "Filing Date"),
          ("width", J.num 95), ("default_visible", J.bool false)]]

/-- Sample stored preference blob: one kept column, one stale column. -/
def samplePrefs : List (String × J) :=
  [("visible_columns", J.arr [J.str "title", J.str "old_column"]),
   ("column_widths", J.obj [("title", J.num 300)])]

/-- C2: event ingestion is idempotent.  For a tracked record and a key
`(record, code, date)` not yet in the ledger, the first `add_event`
returns true, the second returns false and changes nothing, and exactly
one matching row is stored afterwards (whatever descriptions the two
calls carry). -/
theorem add_event_idempotent (db : Db) (pid : Int) (code descr descr2 date : String)
    (hfk : db.patents.any (fun p => p.id == pid) = true)
    (hnew : db.events.any (fun e =>
      e.patent_id == pid && e.event_code == code && e.event_date == date) = false) :
    (add_event db pid code descr date).2 = true ∧
    (add_event (add_event db pid code descr date).1 pid code descr2 date).2 = false ∧
    (add_event (add_event db pid code descr date).1 pid code descr2 date).1
      = (add_event db pid code descr date).1 ∧
    (add_event (add_event db pid code descr date).1 pid code descr2 date).1.events.countP
      (fun e => e.patent_id == pid && e.event_code == code && e.event_date == date) = 1 := by
  have h1 : add_event db pid code descr date =
      ({ db with events := db.events ++
          [{ patent_id := pid, event_code := code,
             event_description := descr, event_date := date, is_new := true }] }, true) := by
    simp [add_event, hfk, hnew]
  have hdup2 : ({ db with events := db.events ++
          [{ patent_id := pid, event_code := code,
             event_description := descr, event_date := date, is_new := true }] } : Db).events.any
        (fun e => e.patent_id == pid && e.event_code == code && e.event_date == date) = true := by
    simp
  have h2 : add_event ({ db with events := db.events ++
          [{ patent_id := pid, event_code := code,
             event_description := descr, event_date := date, is_new := true }] }) pid code descr2 date
      = ({ db with events := db.events ++
          [{ patent_id := pid, event_code := code,
             event_description := descr, event_date := date, is_new := true }] }, false) := by
    simp [add_event, hdup2]
  have hcount : ∀ x ∈ db.events, ¬ ((fun e =>
      e.patent_id == pid && e.event_code == code && e.event_date == date) x = true) := by
    intro x hx
    exact (List.any_eq_false.mp hnew) x hx
  refine ⟨by rw [h1], by rw [h1, h2], by rw [h1, h2], ?_⟩
  rw [h1, h2]
  simp [List.countP_append, List.countP_eq_zero.mpr hcount, List.countP_cons]

/-- C2 witness: concrete double insertion on the sample store. -/
theorem add_event_idempotent_witness :
    (add_event sampleDb 1 "CTNF" "Non-Final Rejection" "2024-01-01").2 = true ∧
    (add_event (add_event sampleDb 1 "CTNF" "Non-Final Rejection" "2024-01-01").1
      1 "CTNF" "Non-Final Rejection (again)" "2024-01-01").2 = false ∧
    (add_event (add_event sampleDb 1 "CTNF" "Non-Final Rejection" "2024-01-01").1
      1 "CTNF" "Non-Final Rejection (again)" "2024-01-01").1
      = (add_event sampleDb 1 "CTNF" "Non-Final Rejection" "2024-01-01").1 ∧
    (add_event (add_event sampleDb 1 "CTNF" "Non-Final Rejection" "2024-01-01").1
      1 "CTNF" "Non-Final Rejection (again)" "2024-01-01").1.events.countP
      (fun e => e.patent_id == 1 && e.event_code == "CTNF" && e.event_date == "2024-01-01") = 1 :=
  add_event_idempotent sampleDb 1 "CTNF" "Non-Final Rejection" "Non-Final Rejection (again)"
    "2024-01-01" rfl rfl

/-- C10: `add_event` on a `patent_id` with no patents row is reported as
not-new (the foreign-key violation is caught like a duplicate) and the
store is unchanged. -/
theorem add_event_missing_record (db : Db) (pid : Int) (code descr date : String)
    (hfk : db.patents.any (fun p => p.id == pid) = false) :
    add_event db pid code descr date = (db, false) := by
  simp [add_event, hfk]

/-- C10 witness: inserting for the untracked id 2 on the sample store. -/
theorem add_event_missing_record_witness :
    add_event sampleDb 2 "CTNF" "Non-Final Rejection" "2024-01-01" = (sampleDb, false) :=
  add_event_missing_record sampleDb 2 "CTNF" "Non-Final Rejection" "2024-01-01" rfl

/-! ## C9: scheduler stop latency -/

/-- Bound on the sleep counter: once the flag reads false at index `k`,
at most `k - done` further sleeps happen. -/
theorem pollWaitSleeps_le (running : Nat → Bool) :
    ∀ total done k, done ≤ k → running k = false →
      pollWaitSleeps running total done ≤ k - done := by
  intro total
  induction total with
  | zero => intro done k _ _; simp [pollWaitSleeps]
  | succ t ih =>
    intro done k hdk hk
    by_cases hr : running done = true
    · have hne : done ≠ k := by
        intro he; rw [he] at hr; rw [hr] at hk; cases hk
      have hdk1 : done + 1 ≤ k := by omega
      have := ih (done + 1) k hdk1 hk
      simp only [pollWaitSleeps, hr, if_true]
      omega
    · have hf : running done = false := by simpa using hr
      simp [pollWaitSleeps, hf]

/-- C9: the inter-poll wait of `_poll_loop` sleeps one second at a time
and rechecks the `_running` flag before each second, so after the flag
is cleared (observed false from check index `k` on) the loop performs no
further sleeps beyond the first `k` — a stop latency bounded by one
sleep increment, regardless of the configured `interval_minutes`. -/
theorem scheduler_stop_latency (running : Nat → Bool) (interval_minutes k : Nat)
    (h : running k = false) :
    pollWaitSleeps running (interval_minutes * 60) 0 ≤ k := by
  have := pollWaitSleeps_le running (interval_minutes * 60) 0 k (Nat.zero_le k) h
  simpa using this

/-- C9 witness: a flag cleared at the third check bounds the sleeps of a
24-hour interval by 3. -/
theorem scheduler_stop_latency_witness :
    pollWaitSleeps (fun i => decide (i < 3)) (1440 * 60) 0 ≤ 3 :=
  scheduler_stop_latency (fun i => decide (i < 3)) 1440 3 (by decide)

/-! ## C4: required-endpoint failure leaves the store untouched -/

/-- C4: when the required application fetch fails, or its payload lacks
the expected top-level structure, `_update_patent_from_api` raises a
typed error and performs no store write at all. -/
theorem sync_required_failure_no_write (env : Env) (now : String) (pid : Int) (app : String)
    (db : Db)
    (h : match env.application with
         | .error _ => True
         | .ok raw => parse_application_data raw = .ok none) :
    (_update_patent_from_api env now pid app db).1 = db ∧
    ∃ e, (_update_patent_from_api env now pid app db).2 = .error e := by
  cases happ : env.application with
  | error e =>
    simp [_update_patent_from_api, happ]
  | ok raw =>
    rw [happ] at h
    simp [_update_patent_from_api, happ, h]

/-- C4 witness: a failing required fetch on the sample store raises and
leaves the store untouched. -/
theorem sync_required_failure_no_write_witness :
    (_update_patent_from_api envDown "2024-06-01T00:00:00" 1 "17940142" sampleDb).1 = sampleDb ∧
    ∃ e, (_update_patent_from_api envDown "2024-06-01T00:00:00" 1 "17940142" sampleDb).2
        = .error e :=
  sync_required_failure_no_write envDown "2024-06-01T00:00:00" 1 "17940142" sampleDb True.intro

/-! ## C6: cascading delete -/

/-- C6: `remove_patent` returns true exactly when a row with the
normalized number exists, leaves the store unchanged when it returns
false, and otherwise removes the found row and every dependent event,
continuity, document, and assignment row of its id. -/
theorem remove_patent_cascades (db : Db) (app : String) :
    ((remove_patent db app).2 = db.patents.any
        (fun p => p.application_number == normalize_app_number app)) ∧
    ((remove_patent db app).2 = false → (remove_patent db app).1 = db) ∧
    (∀ p, db.patents.find? (fun q => q.application_number == normalize_app_number app) = some p →
      ((remove_patent db app).1.patents.all (fun q => !(q.id == p.id)) = true ∧
       (remove_patent db app).1.events.all (fun e => !(e.patent_id == p.id)) = true ∧
       (remove_patent db app).1.continuity.all (fun c => !(c.patent_id == p.id)) = true ∧
       (remove_patent db app).1.documents.all (fun d => !(d.patent_id == p.id)) = true ∧
       (remove_patent db app).1.assignments.all (fun a => !(a.patent_id == p.id)) = true)) := by
  cases hf : db.patents.find? (fun q => q.application_number == normalize_app_number app) with
  | none =>
    have hany : db.patents.any (fun p => p.application_number == normalize_app_number app)
        = false := by
      rw [List.any_eq_false]
      intro x hx
      simpa using List.find?_eq_none.mp hf x hx
    refine ⟨by simp [remove_patent, hf, hany], by intro _; simp [remove_patent, hf], ?_⟩
    intro p hp
    simp at hp
  | some p0 =>
    have hmem := List.mem_of_find?_eq_some hf
    have hpred := List.find?_some hf
    have hany : db.patents.any (fun p => p.application_number == normalize_app_number app)
        = true :=
      List.any_eq_true.mpr ⟨p0, hmem, hpred⟩
    refine ⟨by simp [remove_patent, hf, hany], ?_, ?_⟩
    · intro hfalse
      simp [remove_patent, hf] at hfalse
    · intro p hp
      injection hp with h
      subst h
      refine ⟨?_, ?_, ?_, ?_, ?_⟩ <;>
        · simp only [remove_patent, hf]
          rw [List.all_eq_true]
          intro x hx
          exact (List.mem_filter.mp hx).2

/-- C6 witness: removing the sample patent deletes it and its dependent
rows. -/
theorem remove_patent_cascades_witness :
    (remove_patent sampleDb "17/940,142").2 = true ∧
    (remove_patent sampleDb "17/940,142").1.patents.all (fun q => !(q.id == samplePatent.id))
      = true ∧
    (remove_patent sampleDb "17/940,142").1.continuity.all
      (fun c => !(c.patent_id == samplePatent.id)) = true ∧
    (remove_patent sampleDb "17/940,142").1.documents.all
      (fun d => !(d.patent_id == samplePatent.id)) = true ∧
    (remove_patent sampleDb "17/940,142").1.assignments.all
      (fun a => !(a.patent_id == samplePatent.id)) = true := by
  have h := remove_patent_cascades sampleDb "17/940,142"
  have h3 := h.2.2 samplePatent rfl
  exact ⟨h.1.trans rfl, h3.1, h3.2.2.1, h3.2.2.2.1, h3.2.2.2.2⟩

/-! ## C1: batch success flag -/

/-- The poll loop never touches the `success` field of the accumulator. -/
theorem pollFold_success (envs : String → Env) (now : String) :
    ∀ (ps : List PatentRow) (acc : Db × PollResult),
      (ps.foldl (pollOne envs now) acc).2.success = acc.2.success := by
  intro ps
  induction ps with
  | nil => intro acc; rfl
  | cons p ps ih =>
    intro acc
    rw [List.foldl_cons, ih]
    cases h : (_update_patent_from_api (envs p.application_number) now p.id
        p.application_number acc.1).2 with
    | ok o => simp [pollOne, h]
    | error e => cases e <;> simp [pollOne, h]

/-- Length of an ordered insertion. -/
theorem length_insertRowSorted (p : PatentRow) :
    ∀ l : List PatentRow, (insertRowSorted p l).length = l.length + 1 := by
  intro l
  induction l with
  | nil => rfl
  | cons q qs ih =>
    by_cases h : p.application_number ≤ q.application_number
    · simp [insertRowSorted, h]
    · simp [insertRowSorted, h, ih]

/-- Sorting preserves the number of tracked records. -/
theorem length_get_all_patents (db : Db) :
    (get_all_patents db).length = db.patents.length := by
  rw [get_all_patents]
  induction db.patents with
  | nil => rfl
  | cons p ps ih => rw [sortByAppNumber, length_insertRowSorted, ih, List.length_cons]

/-- C1 (amended): `poll_now` reports `success = true` exactly when the
error list is empty or strictly shorter than the tracked-record list;
the flag is recomputed as `errors < total` only when at least one error
was collected. -/
theorem poll_now_success_iff (envs : String → Env) (now : String) (db : Db) :
    (poll_now envs now db).2.success = true ↔
      ((poll_now envs now db).2.errors = [] ∨
       (poll_now envs now db).2.errors.length < db.patents.length) := by
  have hlen : (get_all_patents db).length = db.patents.length :=
    length_get_all_patents db
  simp only [poll_now]
  split
  case isTrue h =>
    have hs : ((get_all_patents db).foldl (pollOne envs now)
        (db, { success := true, new_events := [], errors := [], updated_patents := 0 })).2.success
        = true :=
      pollFold_success envs now (get_all_patents db) _
    have he : ((get_all_patents db).foldl (pollOne envs now)
        (db, { success := true, new_events := [], errors := [], updated_patents := 0 })).2.errors
        = [] := by
      simpa [List.isEmpty_iff] using h
    simp [hs, he]
  case isFalse h =>
    have he : ¬ ((get_all_patents db).foldl (pollOne envs now)
        (db, { success := true, new_events := [], errors := [], updated_patents := 0 })).2.errors
        = [] := by
      simpa [List.isEmpty_iff] using h
    simp [he, hlen]

/-- C1 counterexample: on a store with no tracked records, `poll_now`
reports `success = true` although `errors_count < total_records` fails
(`0 < 0`), so the claimed equivalence does not hold at this input. -/
theorem poll_now_empty_store_counterexample :
    (poll_now (fun _ => envDown) "2024-06-01T00:00:00" emptyDb).2.success = true ∧
    (poll_now (fun _ => envDown) "2024-06-01T00:00:00" emptyDb).2.errors.length = 0 ∧
    emptyDb.patents.length = 0 ∧
    ¬ ((poll_now (fun _ => envDown) "2024-06-01T00:00:00" emptyDb).2.errors.length
        < emptyDb.patents.length) := by
  refine ⟨rfl, rfl, rfl, by decide⟩

/-! ## C7: visible-columns reconciliation -/

/-- The append loop of `validate_table_preferences` equals the base list
followed by the not-yet-present defaults. -/
theorem foldAppendMissing :
    ∀ (defaults base : List String),
      defaults.foldl (fun acc k => if acc.contains k then acc else acc ++ [k]) base
        = base ++ specMissingDefaults defaults base := by
  intro defaults
  induction defaults with
  | nil => intro base; simp [specMissingDefaults]
  | cons d ds ih =>
    intro base
    rw [List.foldl_cons, specMissingDefaults]
    by_cases h : base.contains d = true
    · rw [if_pos h, if_pos h]
      exact ih base
    · rw [if_neg h, if_neg h, ih (base ++ [d])]
      simp

/-- Every default-visible key ends up in the reconciled list. -/
theorem mem_append_specMissingDefaults (k : String) :
    ∀ (defaults base : List String), k ∈ defaults →
      k ∈ base ++ specMissingDefaults defaults base := by
  intro defaults
  induction defaults with
  | nil => intro base h; cases h
  | cons d ds ih =>
    intro base hk
    rw [specMissingDefaults]
    by_cases hc : base.contains d = true
    · rw [if_pos hc]
      rcases List.mem_cons.mp hk with he | hm
      · subst he
        exact List.mem_append.mpr (Or.inl (by simpa using hc))
      · exact ih base hm
    · rw [if_neg hc]
      rcases List.mem_cons.mp hk with he | hm
      · subst he
        exact List.mem_append.mpr (Or.inr (List.mem_cons_self _ _))
      · have := ih (base ++ [d]) hm
        rcases List.mem_append.mp this with h1 | h2
        · rcases List.mem_append.mp h1 with h3 | h4
          · exact List.mem_append.mpr (Or.inl h3)
          · exact List.mem_append.mpr (Or.inr (by
              simpa using Or.inl (List.mem_singleton.mp h4)))
        · exact List.mem_append.mpr (Or.inr (List.mem_cons_of_mem _ h2))

/-- C7: the reconciled `visible_columns` list is exactly: the stored
entries that name current schema columns, in their stored order — or the
schema's default-visible set when none survive — followed by the
still-missing default-visible columns appended in schema order; in
particular every default-visible column is present. -/
theorem validate_visible_columns_spec (prefs : List (String × J)) (columns : List J) :
    ((validate_table_preferences prefs columns).visible_columns
      = (if specKeptVisible prefs columns = [] then columnDefaultVisible columns
         else specKeptVisible prefs columns)
        ++ specMissingDefaults (columnDefaultVisible columns)
            (if specKeptVisible prefs columns = [] then columnDefaultVisible columns
             else specKeptVisible prefs columns)) ∧
    (∀ k ∈ columnDefaultVisible columns,
      k ∈ (validate_table_preferences prefs columns).visible_columns) := by
  have hbase : (if (specKeptVisible prefs columns).isEmpty then columnDefaultVisible columns
        else specKeptVisible prefs columns)
      = (if specKeptVisible prefs columns = [] then columnDefaultVisible columns
         else specKeptVisible prefs columns) := by
    by_cases he : specKeptVisible prefs columns = [] <;> simp [he]
  have hmain : (validate_table_preferences prefs columns).visible_columns
      = (if specKeptVisible prefs columns = [] then columnDefaultVisible columns
         else specKeptVisible prefs columns)
        ++ specMissingDefaults (columnDefaultVisible columns)
            (if specKeptVisible prefs columns = [] then columnDefaultVisible columns
             else specKeptVisible prefs columns) := by
    calc (validate_table_preferences prefs columns).visible_columns
        = (columnDefaultVisible columns).foldl
            (fun acc k => if acc.contains k then acc else acc ++ [k])
            (if (specKeptVisible prefs columns).isEmpty then columnDefaultVisible columns
             else specKeptVisible prefs columns) := rfl
      _ = (columnDefaultVisible columns).foldl
            (fun acc k => if acc.contains k then acc else acc ++ [k])
            (if specKeptVisible prefs columns = [] then columnDefaultVisible columns
             else specKeptVisible prefs columns) := by rw [hbase]
      _ = _ := foldAppendMissing _ _
  refine ⟨hmain, ?_⟩
  intro k hk
  rw [hmain]
  exact mem_append_specMissingDefaults k _ _ hk

/-- C7 witness: on the sample schema, the stale entry is dropped, the
kept order is preserved, and the missing default-visible column is
appended. -/
theorem validate_visible_columns_spec_witness :
    (validate_table_preferences samplePrefs sampleColumns).visible_columns
      = (if specKeptVisible samplePrefs sampleColumns = []
         then columnDefaultVisible sampleColumns
         else specKeptVisible samplePrefs sampleColumns)
        ++ specMissingDefaults (columnDefaultVisible sampleColumns)
            (if specKeptVisible samplePrefs sampleColumns = []
             then columnDefaultVisible sampleColumns
             else specKeptVisible samplePrefs sampleColumns) ∧
    "app_number" ∈ (validate_table_preferences samplePrefs sampleColumns).visible_columns :=
  ⟨(validate_visible_columns_spec samplePrefs sampleColumns).1,
   (validate_visible_columns_spec samplePrefs sampleColumns).2 "app_number" (by decide)⟩

/-! ## C8: identifier normalization round-trip -/

/-- Stripping a character that does not occur is the identity. -/
theorem removeChar_eq_self (c : Char) (t : String) (h : ∀ x ∈ t.data, ¬ (x = c)) :
    removeChar c t = t := by
  have : t.data.filter (fun x => !(x = c)) = t.data :=
    List.filter_eq_self.mpr (fun x hx => by simpa using h x hx)
  calc removeChar c t = ⟨t.data.filter (fun x => !(x = c))⟩ := rfl
    _ = ⟨t.data⟩ := by rw [this]

/-- Characters surviving normalization are none of the stripped ones. -/
theorem mem_normalize_app_number (s : String) :
    ∀ x ∈ (normalize_app_number s).data, ¬ (x = '/') ∧ ¬ (x = ' ') ∧ ¬ (x = ',') := by
  intro x hx
  have h3 := List.mem_filter.mp hx
  have h2 := List.mem_filter.mp h3.1
  have h1 := List.mem_filter.mp h2.1
  refine ⟨by simpa using h1.2, by simpa using h2.2, by simpa using h3.2⟩

/-- Normalization is idempotent. -/
theorem normalize_app_number_idem (s : String) :
    normalize_app_number (normalize_app_number s) = normalize_app_number s := by
  have h := mem_normalize_app_number s
  have e1 : removeChar '/' (normalize_app_number s) = normalize_app_number s :=
    removeChar_eq_self '/' _ (fun x hx => (h x hx).1)
  have e2 : removeChar ' ' (normalize_app_number s) = normalize_app_number s :=
    removeChar_eq_self ' ' _ (fun x hx => (h x hx).2.1)
  have e3 : removeChar ',' (normalize_app_number s) = normalize_app_number s :=
    removeChar_eq_self ',' _ (fun x hx => (h x hx).2.2)
  calc normalize_app_number (normalize_app_number s)
      = removeChar ',' (removeChar ' ' (removeChar '/' (normalize_app_number s))) := rfl
    _ = normalize_app_number s := by rw [e1, e2, e3]

/-- C8: normalization round-trips through display formatting — for every
input, normalizing the formatted form of a normalized number gives back
the normalized number. -/
theorem normalize_format_roundtrip (s : String) :
    normalize_app_number (format_app_number (normalize_app_number s)) = normalize_app_number s := by
  have hkey := mem_normalize_app_number s
  by_cases h8 : 8 ≤ (normalize_app_number s).data.length
  · have hfmt : format_app_number (normalize_app_number s)
        = ⟨(normalize_app_number s).data.take 2
            ++ '/' :: (((normalize_app_number s).data.drop 2).take 3
            ++ ',' :: (normalize_app_number s).data.drop 5)⟩ := by
      simp only [format_app_number, normalize_app_number_idem, h8, if_true]
      simp [List.append_assoc]
    rw [hfmt]
    have hsub1 : ∀ x ∈ (normalize_app_number s).data.take 2, x ∈ (normalize_app_number s).data :=
      fun x hx => List.take_subset _ _ hx
    have hsub2 : ∀ x ∈ ((normalize_app_number s).data.drop 2).take 3,
        x ∈ (normalize_app_number s).data :=
      fun x hx => List.drop_subset _ _ (List.take_subset _ _ hx)
    have hsub3 : ∀ x ∈ (normalize_app_number s).data.drop 5, x ∈ (normalize_app_number s).data :=
      fun x hx => List.drop_subset _ _ hx
    have f1A : ((normalize_app_number s).data.take 2).filter (fun x => !(x = '/'))
        = (normalize_app_number s).data.take 2 :=
      List.filter_eq_self.mpr (fun x hx => by simpa using (hkey x (hsub1 x hx)).1)
    have f1B : (((normalize_app_number s).data.drop 2).take 3).filter (fun x => !(x = '/'))
        = ((normalize_app_number s).data.drop 2).take 3 :=
      List.filter_eq_self.mpr (fun x hx => by simpa using (hkey x (hsub2 x hx)).1)
    have f1C : ((normalize_app_number s).data.drop 5).filter (fun x => !(x = '/'))
        = (normalize_app_number s).data.drop 5 :=
      List.filter_eq_self.mpr (fun x hx => by simpa using (hkey x (hsub3 x hx)).1)
    have f2A : ((normalize_app_number s).data.take 2).filter (fun x => !(x = ' '))
        = (normalize_app_number s).data.take 2 :=
      List.filter_eq_self.mpr (fun x hx => by simpa using (hkey x (hsub1 x hx)).2.1)
    have f2B : (((normalize_app_number s).data.drop 2).take 3).filter (fun x => !(x = ' '))
        = ((normalize_app_number s).data.drop 2).take 3 :=
      List.filter_eq_self.mpr (fun x hx => by simpa using (hkey x (hsub2 x hx)).2.1)
    have f2C : ((normalize_app_number s).data.drop 5).filter (fun x => !(x = ' '))
        = (normalize_app_number s).data.drop 5 :=
      List.filter_eq_self.mpr (fun x hx => by simpa using (hkey x (hsub3 x hx)).2.1)
    have f3A : ((normalize_app_number s).data.take 2).filter (fun x => !(x = ','))
        = (normalize_app_number s).data.take 2 :=
      List.filter_eq_self.mpr (fun x hx => by simpa using (hkey x (hsub1 x hx)).2.2)
    have f3B : (((normalize_app_number s).data.drop 2).take 3).filter (fun x => !(x = ','))
        = ((normalize_app_number s).data.drop 2).take 3 :=
      List.filter_eq_self.mpr (fun x hx => by simpa using (hkey x (hsub2 x hx)).2.2)
    have f3C : ((normalize_app_number s).data.drop 5).filter (fun x => !(x = ','))
        = (normalize_app_number s).data.drop 5 :=
      List.filter_eq_self.mpr (fun x hx => by simpa using (hkey x (hsub3 x hx)).2.2)
    have e1 : ((normalize_app_number s).data.take 2
          ++ '/' :: (((normalize_app_number s).data.drop 2).take 3
          ++ ',' :: (normalize_app_number s).data.drop 5)).filter (fun x => !(x = '/'))
        = (normalize_app_number s).data.take 2
          ++ (((normalize_app_number s).data.drop 2).take 3
          ++ ',' :: (normalize_app_number s).data.drop 5) := by
      simp [List.filter_append, List.filter_cons, f1A, f1B, f1C]
    have e2 : ((normalize_app_number s).data.take 2
          ++ (((normalize_app_number s).data.drop 2).take 3
          ++ ',' :: (normalize_app_number s).data.drop 5)).filter (fun x => !(x = ' '))
        = (normalize_app_number s).data.take 2
          ++ (((normalize_app_number s).data.drop 2).take 3
          ++ ',' :: (normalize_app_number s).data.drop 5) := by
      simp [List.filter_append, List.filter_cons, f2A, f2B, f2C]
    have e3 : ((normalize_app_number s).data.take 2
          ++ (((normalize_app_number s).data.drop 2).take 3
          ++ ',' :: (normalize_app_number s).data.drop 5)).filter (fun x => !(x = ','))
        = (normalize_app_number s).data.take 2
          ++ (((normalize_app_number s).data.drop 2).take 3
          ++ (normalize_app_number s).data.drop 5) := by
      simp [List.filter_append, List.filter_cons, f3A, f3B, f3C]
    have hBC : ((normalize_app_number s).data.drop 2).take 3
          ++ (normalize_app_number s).data.drop 5 = (normalize_app_number s).data.drop 2 := by
      have hd : (normalize_app_number s).data.drop 5
          = ((normalize_app_number s).data.drop 2).drop 3 := by
        rw [List.drop_drop]
      rw [hd, List.take_append_drop]
    have hassemble : (normalize_app_number s).data.take 2
          ++ (((normalize_app_number s).data.drop 2).take 3
          ++ (normalize_app_number s).data.drop 5) = (normalize_app_number s).data := by
      rw [hBC, List.take_append_drop]
    calc normalize_app_number ⟨(normalize_app_number s).data.take 2
            ++ '/' :: (((normalize_app_number s).data.drop 2).take 3
            ++ ',' :: (normalize_app_number s).data.drop 5)⟩
        = ⟨((((normalize_app_number s).data.take 2
            ++ '/' :: (((normalize_app_number s).data.drop 2).take 3
            ++ ',' :: (normalize_app_number s).data.drop 5)).filter
              (fun x => !(x = '/'))).filter (fun x => !(x = ' '))).filter (fun x => !(x = ','))⟩ :=
          rfl
      _ = ⟨(normalize_app_number s).data⟩ := by rw [e1, e2, e3, hassemble]
      _ = normalize_app_number s := rfl
  · have hfmt : format_app_number (normalize_app_number s) = normalize_app_number s := by
      simp only [format_app_number, normalize_app_number_idem, h8, if_false]
    rw [hfmt, normalize_app_number_idem]

/-! ## Dictionary lemmas for the merge analysis -/

/-- Digit characters decode to their value. -/
theorem digitVal_digitChar (k : Nat) (h : k < 10) : digitVal (digitChar k) = some k := by
  interval_cases k <;> decide

/-- The `%Y` matcher reads back a rendered four-digit year. -/
theorem matchYear_render (y : Nat) (hy : y ≤ 9999) (rest : List Char) :
    matchYear (digitChar (y / 1000 % 10) :: digitChar (y / 100 % 10)
      :: digitChar (y / 10 % 10) :: digitChar (y % 10) :: rest) = some (y, rest) := by
  have e1 := digitVal_digitChar (y / 1000 % 10) (by omega)
  have e2 := digitVal_digitChar (y / 100 % 10) (by omega)
  have e3 := digitVal_digitChar (y / 10 % 10) (by omega)
  have e4 := digitVal_digitChar (y % 10) (by omega)
  simp only [matchYear, e1, e2, e3, e4]
  have hval : ((y / 1000 % 10 * 10 + y / 100 % 10) * 10 + y / 10 % 10) * 10 + y % 10 = y := by
    omega
  rw [hval]

/-- The full `strptime` model reads back a rendered date. -/
theorem parseYMD_renderDate (y m d : Nat) (hy2 : y ≤ 9999)
    (hm1 : 1 ≤ m) (hm2 : m ≤ 12) (hd1 : 1 ≤ d) (hd2 : d ≤ 31) :
    parseYMD (renderDate y m d) = some (y, m, d) := by
  have hy := matchYear_render y hy2 ('-' :: digitChar (m / 10 % 10) :: digitChar (m % 10)
    :: '-' :: digitChar (d / 10 % 10) :: digitChar (d % 10) :: [])
  simp only [parseYMD, renderDate, hy]
  interval_cases m <;> interval_cases d <;> rfl

/-- Month lengths never exceed 31. -/
theorem daysInMonth_le (y m : Nat) : daysInMonth y m ≤ 31 := by
  rw [daysInMonth]
  split
  · split <;> omega
  · split <;> omega

/-- Outside February the month length does not depend on the year. -/
theorem daysInMonth_ne_two (y1 y2 m : Nat) (h : ¬ m = 2) :
    daysInMonth y1 m = daysInMonth y2 m := by
  simp [daysInMonth, h]

/-- February length, explicitly. -/
theorem daysInMonth_feb (y : Nat) :
    daysInMonth y 2 = if isLeapYear y = true then 29 else 28 := by
  simp [daysInMonth]

/-- February has at least 28 days. -/
theorem daysInMonth_feb_ge (y : Nat) : 28 ≤ daysInMonth y 2 := by
  rw [daysInMonth_feb]
  split <;> omega

/-- Day counts of twentieth-century-or-later dates clear the epoch. -/
theorem ratadieOfDate_lower (y m d : Nat) (h : 1020 ≤ y) :
    306 ≤ ratadieOfDate y m d := by
  simp only [ratadieOfDate]
  split <;> omega

/-- Python `n or 0` on a decoded integer is that integer. -/
theorem jOrZero_num (n : Int) : jOrZero (J.num n) = J.num n := by
  by_cases h : n = 0
  · subst h; rfl
  · simp [jOrZero, J.toBool, h]

/-- Case analysis of `filing.replace(year=filing.year + 20)`: either the
plain 20-year target is a valid date (and no clamp applies), or the
filing date is February 29, the target year is not leap, and the clamp
target is valid. -/
theorem validDate_twenty (y m d : Nat) (hv : validDate y m d = true) (hy20 : y + 20 ≤ 9999) :
    (validDate (y + 20) m d = true ∧ twentyYearAnniv y m d = (y + 20, m, d)) ∨
    (validDate (y + 20) m d = false ∧ (m = 2 ∧ d = 29) ∧
     validDate (y + 20) 2 28 = true ∧ twentyYearAnniv y m d = (y + 20, 2, 28)) := by
  simp only [validDate, Bool.and_eq_true, decide_eq_true_eq] at hv
  obtain ⟨⟨⟨⟨⟨hy1, hy9⟩, hm1⟩, hm12⟩, hd1⟩, hdm⟩ := hv
  by_cases h20 : validDate (y + 20) m d = true
  · left
    refine ⟨h20, ?_⟩
    rw [twentyYearAnniv, if_neg]
    rintro ⟨he2, he29, hnl⟩
    subst he2
    subst he29
    simp only [validDate, Bool.and_eq_true, decide_eq_true_eq] at h20
    have hfe : daysInMonth (y + 20) 2 = 28 := by
      rw [daysInMonth_feb, if_neg hnl]
    omega
  · right
    by_cases hm2 : m = 2
    · subst hm2
      have hf : daysInMonth y 2 ≤ 29 := by
        rw [daysInMonth_feb]
        split <;> omega
      have hge := daysInMonth_feb_ge (y + 20)
      by_cases hd28 : d ≤ 28
      · exfalso
        apply h20
        simp only [validDate, Bool.and_eq_true, decide_eq_true_eq]
        omega
      · have hd29 : d = 29 := by omega
        subst hd29
        have hnl : ¬ (isLeapYear (y + 20) = true) := by
          intro hl
          apply h20
          have hfe : daysInMonth (y + 20) 2 = 29 := by
            rw [daysInMonth_feb, if_pos hl]
          simp only [validDate, Bool.and_eq_true, decide_eq_true_eq]
          omega
        have hfe : daysInMonth (y + 20) 2 = 28 := by
          rw [daysInMonth_feb, if_neg hnl]
        refine ⟨by simpa using h20, ⟨rfl, rfl⟩, ?_, ?_⟩
        · simp only [validDate, Bool.and_eq_true, decide_eq_true_eq]
          omega
        · rw [twentyYearAnniv, if_pos ⟨rfl, rfl, hnl⟩]
    · exfalso
      apply h20
      have hdd := daysInMonth_ne_two (y + 20) y m hm2
      simp only [validDate, Bool.and_eq_true, decide_eq_true_eq]
      omega

/-- C3 (amended): for every well-formed `YYYY-MM-DD` filing date whose
20-year target year stays within the supported `datetime` range and
whose adjusted result does not pass `9999-12-31`, the function returns
the filing date plus 20 calendar years — with the February-29 clamp —
plus the adjustment days; an empty filing date, an unparsable one, or
one that fails date validation yields the empty string instead of an
error. -/
theorem calculate_expiration_date_spec :
    (∀ y m d pta : Nat, 1000 ≤ y → validDate y m d = true → y + 20 ≤ 9999 →
      ratadieOfDate (twentyYearAnniv y m d).1 (twentyYearAnniv y m d).2.1
          (twentyYearAnniv y m d).2.2 + pta ≤ ratadieMax →
      calculate_expiration_date (renderDate y m d) (J.num (pta : Int))
        = .ok (renderDate (specExpirationTriple y m d pta).1
            (specExpirationTriple y m d pta).2.1 (specExpirationTriple y m d pta).2.2)) ∧
    (∀ ptaJ, calculate_expiration_date "" ptaJ = .ok "") ∧
    (∀ s ptaJ, parseYMD s = none → calculate_expiration_date s ptaJ = .ok "") ∧
    (∀ s ptaJ y m d, parseYMD s = some (y, m, d) → validDate y m d = false →
      calculate_expiration_date s ptaJ = .ok "") := by
  refine ⟨?_, ?_, ?_, ?_⟩
  · intro y m d pta hy1000 hv hy20 hbound
    have hvP := hv
    simp only [validDate, Bool.and_eq_true, decide_eq_true_eq] at hvP
    obtain ⟨⟨⟨⟨⟨hy1, hy9⟩, hm1⟩, hm12⟩, hd1⟩, hdm⟩ := hvP
    have hd31 : d ≤ 31 := le_trans hdm (daysInMonth_le y m)
    have hrender : ¬ (renderDate y m d = "") := by
      intro he
      have hdata := congrArg String.data he
      simp [renderDate] at hdata
    have hpr := parseYMD_renderDate y m d hy9 hm1 hm12 hd1 hd31
    simp only [calculate_expiration_date, hpr]
    rw [if_neg hrender]
    rw [if_neg (show ¬ ¬ (validDate y m d = true) from fun hc => hc hv)]
    rcases validDate_twenty y m d hv hy20 with ⟨h20, hanniv⟩ | ⟨h20, ⟨hm2, hd29⟩, hcl, hanniv⟩
    · rw [if_pos h20]
      have hlow : 306 ≤ ratadieOfDate (y + 20) m d :=
        ratadieOfDate_lower _ _ _ (by omega)
      have hb2 : ratadieOfDate (y + 20) m d + pta ≤ ratadieMax := by
        rw [hanniv] at hbound
        simpa using hbound
      rw [jOrZero_num]
      simp only [pyInt]
      rw [if_neg (show ¬ (((ratadieOfDate (y + 20) m d : Int) + (pta : Int) < (ratadieMin : Int))
          ∨ ((ratadieMax : Int) < (ratadieOfDate (y + 20) m d : Int) + (pta : Int)))
        from by
          rw [ratadieMin]
          push_cast
          omega)]
      have htn : ((ratadieOfDate (y + 20) m d : Int) + (pta : Int)).toNat
          = ratadieOfDate (y + 20) m d + pta := by omega
      rw [htn]
      simp only [specExpirationTriple, hanniv]
    · rw [if_neg (show ¬ (validDate (y + 20) m d = true) from by simp [h20])]
      rw [if_pos ⟨hm2, hd29⟩]
      rw [if_pos hcl]
      have hlow : 306 ≤ ratadieOfDate (y + 20) 2 28 :=
        ratadieOfDate_lower _ _ _ (by omega)
      have hb2 : ratadieOfDate (y + 20) 2 28 + pta ≤ ratadieMax := by
        rw [hanniv] at hbound
        simpa using hbound
      rw [jOrZero_num]
      simp only [pyInt]
      rw [if_neg (show ¬ (((ratadieOfDate (y + 20) 2 28 : Int) + (pta : Int) < (ratadieMin : Int))
          ∨ ((ratadieMax : Int) < (ratadieOfDate (y + 20) 2 28 : Int) + (pta : Int)))
        from by
          rw [ratadieMin]
          push_cast
          omega)]
      have htn : ((ratadieOfDate (y + 20) 2 28 : Int) + (pta : Int)).toNat
          = ratadieOfDate (y + 20) 2 28 + pta := by omega
      rw [htn]
      simp only [specExpirationTriple, hanniv]
  · intro ptaJ
    simp [calculate_expiration_date]
  · intro s ptaJ h
    by_cases hs : s = ""
    · subst hs
      simp [calculate_expiration_date]
    · simp [calculate_expiration_date, h, hs]
  · intro s ptaJ y m d h hv
    by_cases hs : s = ""
    · subst hs
      have hnone : parseYMD "" = none := rfl
      rw [hnone] at h
      cases h
    · simp only [calculate_expiration_date, h]
      rw [if_neg hs]
      rw [if_pos (show ¬ (validDate y m d = true) from by simp [hv])]

/-- C3 counterexample: `9990-01-01` is a well-formed `YYYY-MM-DD` filing
date (it parses and validates), yet the function returns the empty
string — `datetime.replace(year=10010)` raises and the handler maps it
to the undefined result — instead of the 20-year date `10010-01-01` the
claim promises for every well-formed filing date. -/
theorem calculate_expiration_date_counterexample :
    parseYMD "9990-01-01" = some (9990, 1, 1) ∧
    validDate 9990 1 1 = true ∧
    calculate_expiration_date "9990-01-01" (J.num 0) = .ok "" ∧
    specExpirationTriple 9990 1 1 0 = (10010, 1, 1) ∧
    ¬ (parseYMD "" = some (10010, 1, 1)) := by
  exact ⟨by decide, by decide, rfl, by decide, by decide⟩

/-- C3 witness: the leap-day clamp case of the spec (2080-02-29 with
zero adjustment days) evaluates to 2100-02-28 through the amended
theorem. -/
theorem calculate_expiration_date_spec_witness :
    calculate_expiration_date (renderDate 2080 2 29) (J.num ((0 : Nat) : Int))
      = .ok (renderDate (specExpirationTriple 2080 2 29 0).1
          (specExpirationTriple 2080 2 29 0).2.1 (specExpirationTriple 2080 2 29 0).2.2) ∧
    renderDate 2080 2 29 = "2080-02-29" ∧
    renderDate (specExpirationTriple 2080 2 29 0).1 (specExpirationTriple 2080 2 29 0).2.1
      (specExpirationTriple 2080 2 29 0).2.2 = "2100-02-28" :=
  ⟨calculate_expiration_date_spec.1 2080 2 29 0 (by decide) (by decide) (by decide) (by decide),
   by decide, by decide⟩
